import Mathlib

/-!
Verification of the async-2captcha client core: the Task model and its
terminal-state predicates, the RunningTask poll loop, the Async2Captcha
client operations (create_task, get_task_result, get_balance), and the
CoordinatesSolver payload assembly and result re-projection.

Network responses are modelled as JSON values; the HTTP transport is
modelled as a stub function from requests to JSON responses, so every
client operation is a pure function that also records the request(s) it
issued.
-/

namespace TwoCaptcha

/-- An exact decimal number `mant / 10 ^ exp`, the form JSON numeric
literals take on the wire (the service's numeric fields are integers or
plain decimals such as a balance of 12.5). -/
structure Dec where
  mant : Int
  exp : Nat
deriving DecidableEq

/-- The rational value of a decimal. -/
def Dec.toRat (d : Dec) : ℚ :=
  (d.mant : ℚ) / (10 : ℚ) ^ d.exp

/-- A JSON value, as decoded from a wire response. -/
inductive Json where
  | null : Json
  | bool : Bool → Json
  | num : Dec → Json
  | str : String → Json
  | arr : List Json → Json
  | obj : List (String × Json) → Json

/-- A JSON integer literal. -/
def Json.int (n : Int) : Json :=
  .num { mant := n, exp := 0 }

/-- Lookup of a key in an association list of JSON object fields
(first match wins, as in a JSON object with distinct keys). -/
def dictGet (d : List (String × Json)) (k : String) : Option Json :=
  (d.find? (fun p => p.1 == k)).map (fun p => p.2)

/-- Python dict assignment `d[k] = v`: replaces the value at `k` in place
(keeping the key's position) when `k` is present, otherwise appends the
new entry at the end, matching insertion-order semantics. -/
def dictSet (d : List (String × Json)) (k : String) (v : Json) : List (String × Json) :=
  if d.any (fun p => p.1 == k) then
    d.map (fun p => if p.1 == k then (k, v) else p)
  else
    d ++ [(k, v)]

/-- Field lookup on a JSON value: a key lookup when the value is an object,
nothing otherwise. -/
def jGet (j : Json) (k : String) : Option Json :=
  match j with
  | .obj fields => dictGet fields k
  | _ => none

/-- A JSON value read as an integer: numbers of exact integral value only,
as the wire's id and error-code fields are integers. -/
def Json.asInt : Json → Option Int
  | .num d =>
    if d.mant % ((10 : Int) ^ d.exp) = 0 then some (d.mant / (10 : Int) ^ d.exp) else none
  | _ => none

/-- A JSON value read as a string. -/
def Json.asStr : Json → Option String
  | .str s => some s
  | _ => none

/-- The `errorId` field of a response, `0` when absent or non-integer —
the transport and the model both treat a missing `errorId` as "no error". -/
def errorIdOf (j : Json) : Int :=
  ((jGet j "errorId").bind Json.asInt).getD 0

/-- Modelled from the spec: the application-level failure raised by the
transport (`http_session.py` is not under src/), carrying the service's
`errorId`, `errorCode` and `errorDescription` verbatim. -/
structure TwoCaptchaError where
  errorId : Int
  errorCode : Option String
  errorDescription : Option String
deriving DecidableEq

/-- The error value built from a response whose `errorId` is nonzero. -/
def errorOf (j : Json) : TwoCaptchaError :=
  { errorId := errorIdOf j
  , errorCode := (jGet j "errorCode").bind Json.asStr
  , errorDescription := (jGet j "errorDescription").bind Json.asStr }

/-- Modelled from the spec: the response-handling half of `HTTPSession.post`
(`http_session.py` is not under src/). The session decodes the JSON body
and raises an application-level failure when the response's `errorId` is
nonzero; otherwise it returns the decoded body. -/
def HTTPSession.handle (resp : Json) : Except TwoCaptchaError Json :=
  if errorIdOf resp ≠ 0 then .error (errorOf resp) else .ok resp

/-- Modelled from the spec: the in-memory Task model (`models/task.py` is
not under src/). `error_id = 0` means no error; `status` is an extensible
string; `solution` is opaque and absent until ready; `error_code` and
`error_description` are present only for errored tasks. -/
structure Task where
  error_id : Int
  error_code : Option String
  error_description : Option String
  status : String
  task_id : Int
  solution : Option Json

/-- Modelled from the spec: parsing a wire response into a Task
(`models/task.py` is not under src/). Parsing must not fail merely because
`solution` or the error-detail fields are absent, and unknown extra fields
are ignored; fields absent from the response take neutral defaults. -/
def Task.model_validate (j : Json) : Task :=
  { error_id := errorIdOf j
  , error_code := (jGet j "errorCode").bind Json.asStr
  , error_description := (jGet j "errorDescription").bind Json.asStr
  , status := ((jGet j "status").bind Json.asStr).getD ""
  , task_id := ((jGet j "taskId").bind Json.asInt).getD 0
  , solution := jGet j "solution" }

/-- Modelled from the spec: `Task.is_ready`, true iff `error_id == 0` and
`status == "ready"` (`models/task.py` is not under src/). -/
def Task.is_ready (t : Task) : Bool :=
  t.error_id == 0 && t.status == "ready"

/-- Modelled from the spec: `Task.is_processing`, true iff `error_id == 0`
and `status == "processing"` (`models/task.py` is not under src/). -/
def Task.is_processing (t : Task) : Bool :=
  t.error_id == 0 && t.status == "processing"

/-- A request the client hands to the transport: a path and an optional
JSON body (the transport itself merges the credential field in). -/
structure Request where
  path : String
  body : Option Json

/-- A RunningTask as constructed by `Async2Captcha.create_task`: it wraps
the parsed `/createTask` response (`RunningTask.__init__` stores
`Task.model_validate(task_data)`; the client reference is the transport
stub passed separately in this embedding). -/
structure RunningTask where
  task : Task

/-- Outcome of driving the poll loop against a finite script of
`/getTaskResult` responses: the ready Task returned (with the number of
`get_task_result` calls made and the list of sleep intervals taken), the
failure raised by the transport, or `pending` when the script ran out
while the (unbounded) loop would still be polling. -/
inductive WaitOutcome where
  | done : Task → Nat → List Nat → WaitOutcome
  | failed : TwoCaptchaError → Nat → List Nat → WaitOutcome
  | pending : Nat → List Nat → WaitOutcome

/-- `RunningTask.wait_until_completed` (running_task.py lines 15-22),
driven by a script of successive `/getTaskResult` responses. Each
iteration calls `get_task_result` (transport errorId-check then Task
parse); a ready Task is returned; otherwise — the `elif is_processing:
pass` branch does nothing — the loop sleeps 10 and repeats. `calls`
counts `get_task_result` calls and `sleeps` lists each interval slept,
in order, between consecutive calls. -/
def RunningTask.wait_until_completed
    (script : List Json) (calls : Nat) (sleeps : List Nat) : WaitOutcome :=
  match script with
  | [] => .pending calls sleeps
  | r :: rest =>
    match HTTPSession.handle r with
    | .error e => .failed e (calls + 1) sleeps
    | .ok data =>
      let task := Task.model_validate data
      if task.is_ready then .done task (calls + 1) sleeps
      else RunningTask.wait_until_completed rest (calls + 1) (sleeps ++ [10])

/-- The observable behaviour of one `Async2Captcha.create_task` call: the
requests it posted, its result (a RunningTask or a raised failure), and
the caller's payload dictionary after the call. -/
structure CreateCall where
  requests : List Request
  outcome : Except TwoCaptchaError RunningTask
  payload_after : List (String × Json)

/-- The single request `Async2Captcha.create_task` posts: the payload —
with `type` injected — under the `task` key, to `/createTask`. -/
def createRequest (ty : String) (payload : List (String × Json)) : Request :=
  { path := "/createTask", body := some (.obj [("task", .obj (dictSet payload "type" (.str ty)))]) }

/-- `Async2Captcha.create_task` (client.py lines 45-61): sets
`payload["type"] = type` in the caller's dictionary, posts
`{task: payload}` to `/createTask` in a single request, and wraps the
response in a RunningTask; a transport failure propagates. The transport
is a stub from requests to responses. -/
def Async2Captcha.create_task
    (stub : Request → Json) (ty : String) (payload : List (String × Json)) : CreateCall :=
  let payload2 := dictSet payload "type" (.str ty)
  let req : Request := createRequest ty payload
  let resp := stub req
  { requests := [req]
  , outcome := (HTTPSession.handle resp).map (fun data => { task := Task.model_validate data })
  , payload_after := payload2 }

/-- The observable behaviour of one `Async2Captcha.get_task_result` call. -/
structure ResultCall where
  requests : List Request
  outcome : Except TwoCaptchaError Task

/-- The single request `Async2Captcha.get_task_result` posts: the task
identifier under the `taskId` key, to `/getTaskResult`. -/
def resultRequest (task_id : Int) : Request :=
  { path := "/getTaskResult", body := some (.obj [("taskId", .int task_id)]) }

/-- `Async2Captcha.get_task_result` (client.py lines 63-72): posts
`{taskId: task_id}` to `/getTaskResult` in a single attempt, no retry,
and parses the response into a Task. -/
def Async2Captcha.get_task_result
    (stub : Request → Json) (task_id : Int) : ResultCall :=
  let req : Request := resultRequest task_id
  let resp := stub req
  { requests := [req]
  , outcome := (HTTPSession.handle resp).map Task.model_validate }

/-- Digits to their value, most significant first. -/
def digitsToNat (l : List Char) : Nat :=
  l.foldl (fun a c => a * 10 + (c.toNat - 48)) 0

/-- Splits a character list at the first dot: integer part, and the
fractional part when a dot is present. -/
def splitDot : List Char → List Char × Option (List Char)
  | [] => ([], none)
  | c :: rest =>
    if c = '.' then ([], some rest)
    else
      let p := splitDot rest
      (c :: p.1, p.2)

/-- Python's built-in `float()` on a plain decimal string literal
(optional sign, digits, optional dot and digits; the exponent, infinity
and whitespace forms are not needed by the service's balance field). The
result is the exact decimal value read; `none` models the ValueError
raised on a malformed string. -/
def parsePyFloat (s : String) : Option Dec :=
  let chars := s.toList
  let signed : Int × List Char :=
    match chars with
    | '-' :: r => (-1, r)
    | '+' :: r => (1, r)
    | r => (1, r)
  let p := splitDot signed.2
  let ip := p.1
  let fp := p.2.getD []
  if ip.all Char.isDigit && fp.all Char.isDigit && (ip ≠ [] || fp ≠ []) then
    some { mant := signed.1 * (digitsToNat (ip ++ fp) : Int), exp := fp.length }
  else none

/-- Python's `float(x)` coercion applied to a decoded JSON field: numbers
pass through (the service's decimals are exactly representable), strings
are parsed as decimals, booleans coerce to 0 or 1; `none` models the
TypeError raised on other values. -/
def pyFloat : Json → Option Dec
  | .num d => some d
  | .str s => parsePyFloat s
  | .bool b => some { mant := if b then 1 else 0, exp := 0 }
  | _ => none

/-- The observable behaviour of one `Async2Captcha.get_balance` call. The
inner `none` models the exception raised when the response has no
`balance` field or the field does not coerce to float. -/
structure BalanceCall where
  request : Request
  outcome : Except TwoCaptchaError (Option Dec)

/-- `Async2Captcha.get_balance` (client.py lines 74-84): posts to
`/getTaskResult` with no JSON body (no task identifier) and returns
`float(data["balance"])`. -/
def Async2Captcha.get_balance (stub : Request → Json) : BalanceCall :=
  let req : Request := { path := "/getTaskResult", body := none }
  let resp := stub req
  { request := req
  , outcome := (HTTPSession.handle resp).map (fun data => (jGet data "balance").bind pyFloat) }

/-- Python truthiness of an optional string argument (`if comment:`):
false for an absent argument and for the empty string. -/
def pyTruthy : Option String → Bool
  | none => false
  | some s => s != ""

/-- The payload assembly of `CoordinatesSolver.create_task`
(coordinates.py lines 82-93): starts from `{body}`; adds `comment` and
`imgInstructions` under an `if value:` truthiness test, and `minClicks`
and `maxClicks` under an `if value is not None:` test, in that order. -/
def CoordinatesSolver.build_payload
    (body : String) (comment : Option String) (img_instructions : Option String)
    (min_clicks : Option Int) (max_clicks : Option Int) : List (String × Json) :=
  let payload : List (String × Json) := [("body", .str body)]
  let payload := if pyTruthy comment then payload ++ [("comment", .str (comment.getD ""))] else payload
  let payload := if pyTruthy img_instructions then payload ++ [("imgInstructions", .str (img_instructions.getD ""))] else payload
  let payload :=
    match min_clicks with
    | some n => payload ++ [("minClicks", .int n)]
    | none => payload
  match max_clicks with
  | some n => payload ++ [("maxClicks", .int n)]
  | none => payload

/-- The solution model of a CoordinatesTask (coordinates.py lines 11-26):
a required `coordinates` list whose elements are string-to-integer maps
(the clicked points). -/
structure CoordinatesSolution where
  coordinates : List (List (String × Int))
deriving DecidableEq

/-- The typed result model of the coordinates solver (coordinates.py
lines 28-44): the common Task fields plus the solution reinterpreted as a
`CoordinatesSolution` (still optional — absent for non-ready tasks). -/
structure CoordinatesTask where
  error_id : Int
  error_code : Option String
  error_description : Option String
  status : String
  task_id : Int
  solution : Option CoordinatesSolution

/-- Validation of one element of the `coordinates` list as `Dict[str, int]`:
every field value must be an exact integer. -/
def parseIntFields : List (String × Json) → Option (List (String × Int))
  | [] => some []
  | (k, v) :: rest =>
    match v.asInt with
    | some n => (parseIntFields rest).map (fun r => (k, n) :: r)
    | none => none

/-- Validation of one coordinates entry: a JSON object of integers. -/
def parseCoordEntry : Json → Option (List (String × Int))
  | .obj fields => parseIntFields fields
  | _ => none

/-- Validation of a raw solution value as a `CoordinatesSolution`: an
object with a required `coordinates` array of integer maps; extra fields
of the object are ignored (the models ignore unknown wire fields). -/
def parseCoordinatesSolution (j : Json) : Option CoordinatesSolution :=
  match jGet j "coordinates" with
  | some (.arr items) => (items.mapM parseCoordEntry).map (fun l => { coordinates := l })
  | _ => none

/-- The re-projection `CoordinatesTask(**completed_task.model_dump())`
(coordinates.py line 100): the generic Task's fields are dumped and
re-validated as a CoordinatesTask — common fields carry over unchanged,
and the opaque solution, when present, must validate as a
`CoordinatesSolution`; `none` models the validation error raised when it
does not. -/
def coordinates_reproject (t : Task) : Option CoordinatesTask :=
  match t.solution with
  | none =>
    some { error_id := t.error_id, error_code := t.error_code
         , error_description := t.error_description, status := t.status
         , task_id := t.task_id, solution := none }
  | some j =>
    (parseCoordinatesSolution j).map (fun sol =>
      { error_id := t.error_id, error_code := t.error_code
      , error_description := t.error_description, status := t.status
      , task_id := t.task_id, solution := some sol })

/-- A `/getTaskResult` response in the processing state, used as a
concrete witness input. -/
def procResp : Json :=
  .obj [("errorId", .int 0), ("status", .str "processing"), ("taskId", .int 42)]

/-- A ready `/getTaskResult` response with a coordinates solution, used as
a concrete witness input. -/
def readyResp : Json :=
  .obj [("errorId", .int 0), ("status", .str "ready"), ("taskId", .int 42),
        ("solution", .obj [("coordinates", .arr [.obj [("x", .int 10), ("y", .int 20)]])])]

/-- An errored response with `errorId = 12`, used as a concrete witness
input. -/
def errResp : Json :=
  .obj [("errorId", .int 12), ("errorCode", .str "ERROR_CAPTCHA_UNSOLVABLE"),
        ("errorDescription", .str "Workers could not solve the captcha")]

/-- A Task with a nonzero `error_id` and a (spurious) ready status, used
as a concrete witness input for the predicate claims. -/
def erroredTask : Task :=
  { error_id := 12, error_code := some "ERROR_CAPTCHA_UNSOLVABLE"
  , error_description := none, status := "ready", task_id := 7, solution := none }

/-- Unfolding of `is_ready` into its two conditions. -/
lemma is_ready_iff (t : Task) : t.is_ready = true ↔ t.error_id = 0 ∧ t.status = "ready" := by
  simp [Task.is_ready]

/-- Unfolding of `is_processing` into its two conditions. -/
lemma is_processing_iff (t : Task) :
    t.is_processing = true ↔ t.error_id = 0 ∧ t.status = "processing" := by
  simp [Task.is_processing]

/-- C4: `is_ready` is true iff `error_id = 0` and `status = "ready"`;
`is_processing` is true iff `error_id = 0` and `status = "processing"`;
both are false for every Task with nonzero `error_id`, whatever its
status; and no Task is ready and processing at once, so the three logical
states are mutually exclusive. -/
theorem task_state_predicates (t : Task) :
    (t.is_ready = true ↔ t.error_id = 0 ∧ t.status = "ready") ∧
    (t.is_processing = true ↔ t.error_id = 0 ∧ t.status = "processing") ∧
    (t.error_id ≠ 0 → t.is_ready = false ∧ t.is_processing = false) ∧
    ¬(t.is_ready = true ∧ t.is_processing = true) := by
  refine ⟨is_ready_iff t, is_processing_iff t, ?_, ?_⟩
  · intro h
    constructor <;> simp [Task.is_ready, Task.is_processing, h]
  · rintro ⟨h1, h2⟩
    have hr := (is_ready_iff t).mp h1
    have hp := (is_processing_iff t).mp h2
    exact absurd (hr.2.symm.trans hp.2) (by decide)

/-- C4 witness: on a concrete errored Task carrying `status = "ready"`,
both predicates are false. -/
theorem task_state_predicates_witness :
    erroredTask.is_ready = false ∧ erroredTask.is_processing = false :=
  (task_state_predicates erroredTask).2.2.1 (by decide)

/-- C5: with only `body` supplied, the coordinates payload is exactly the
one-key mapping `body`; additionally supplying `min_clicks = 1` and
`max_clicks = 3` adds exactly `minClicks` and `maxClicks` with those
values and nothing else. -/
theorem build_payload_optional_omission (body : String) :
    CoordinatesSolver.build_payload body none none none none = [("body", .str body)] ∧
    CoordinatesSolver.build_payload body none none (some 1) (some 3) =
      [("body", .str body), ("minClicks", .int 1), ("maxClicks", .int 3)] :=
  ⟨rfl, rfl⟩

/-- C7: `get_balance` posts to `/getTaskResult` with no body, and returns
the exact value 12.5 both for a string balance field and for a numeric
one. -/
theorem get_balance_coercion :
    (∀ stub : Request → Json,
      (Async2Captcha.get_balance stub).request = { path := "/getTaskResult", body := none }) ∧
    (Async2Captcha.get_balance (fun _ => .obj [("balance", .str "12.5")])).outcome =
      .ok (some { mant := 125, exp := 1 }) ∧
    (Async2Captcha.get_balance (fun _ => .obj [("balance", .num { mant := 125, exp := 1 })])).outcome =
      .ok (some { mant := 125, exp := 1 }) ∧
    Dec.toRat { mant := 125, exp := 1 } = 12.5 :=
  ⟨fun _ => rfl, rfl, rfl, by norm_num [Dec.toRat]⟩

/-- A `/getTaskResult` response is terminal when polling it stops the
loop: the transport raises (nonzero `errorId`) or the parsed Task is
ready. -/
def terminalResp (r : Json) : Bool :=
  errorIdOf r != 0 || (Task.model_validate r).is_ready

/-- Whatever the script and accumulators, a Task returned by the poll
loop is ready. -/
lemma wait_done_is_ready (script : List Json) :
    ∀ calls sleeps t c s,
      RunningTask.wait_until_completed script calls sleeps = .done t c s → t.is_ready = true := by
  induction script with
  | nil => intro calls sleeps t c s h; simp [RunningTask.wait_until_completed] at h
  | cons r rest ih =>
    intro calls sleeps t c s h
    rw [RunningTask.wait_until_completed] at h
    rcases he : HTTPSession.handle r with e | data
    · rw [he] at h; cases h
    · rw [he] at h
      by_cases hr : (Task.model_validate data).is_ready = true
      · simp only [hr, if_true] at h
        cases h
        exact hr
      · simp only [Bool.not_eq_true] at hr
        simp only [hr, Bool.false_eq_true, if_false] at h
        exact ih _ _ _ _ _ h

/-- A script containing a terminal response drives the poll loop to a
terminal outcome: a ready Task or a raised failure. -/
lemma wait_reaches_terminal (script : List Json) :
    ∀ calls sleeps, (∃ r ∈ script, terminalResp r = true) →
      (∃ t c s, RunningTask.wait_until_completed script calls sleeps = .done t c s) ∨
      (∃ e c s, RunningTask.wait_until_completed script calls sleeps = .failed e c s) := by
  induction script with
  | nil => intro _ _ h; simp at h
  | cons r rest ih =>
    intro calls sleeps h
    rw [RunningTask.wait_until_completed]
    rcases he : HTTPSession.handle r with e | data
    · exact Or.inr ⟨e, calls + 1, sleeps, rfl⟩
    · have hid : errorIdOf r = 0 := by
        by_contra hne
        simp [HTTPSession.handle, hne] at he
      have hdata : data = r := by
        simp [HTTPSession.handle, hid] at he
        exact he.symm
      by_cases hr : (Task.model_validate data).is_ready = true
      · exact Or.inl ⟨Task.model_validate data, calls + 1, sleeps, by simp [hr]⟩
      · have hrest : ∃ x ∈ rest, terminalResp x = true := by
          rcases h with ⟨x, hx, hxt⟩
          rcases List.mem_cons.mp hx with rfl | hx'
          · exfalso
            rw [terminalResp] at hxt
            rcases Bool.or_eq_true_iff.mp hxt with h1 | h2
            · exact absurd hid (by simpa using h1)
            · rw [hdata] at hr; exact hr h2
          · exact ⟨x, hx', hxt⟩
        simp only [Bool.not_eq_true] at hr
        simp only [hr, Bool.false_eq_true, if_false]
        exact ih _ _ hrest

/-- C1: whenever the script of poll responses contains a terminal one, the
poll loop produces exactly one terminal value — either it returns a Task,
which is then ready, or it propagates the failure `get_task_result`
raised; it never returns a non-ready Task (the function returns a single
outcome, so at most one terminal value is ever produced). -/
theorem wait_until_completed_terminal_correct (script : List Json)
    (h : ∃ r ∈ script, terminalResp r = true) :
    ((∃ t c s, RunningTask.wait_until_completed script 0 [] = .done t c s ∧ t.is_ready = true) ∨
     (∃ e c s, RunningTask.wait_until_completed script 0 [] = .failed e c s)) ∧
    (∀ t c s, RunningTask.wait_until_completed script 0 [] = .done t c s → t.is_ready = true) := by
  refine ⟨?_, fun t c s hd => wait_done_is_ready script 0 [] t c s hd⟩
  rcases wait_reaches_terminal script 0 [] h with ⟨t, c, s, hd⟩ | hf
  · exact Or.inl ⟨t, c, s, hd, wait_done_is_ready script 0 [] t c s hd⟩
  · exact Or.inr hf

/-- C1 witness: a concrete two-response script (processing, then ready)
contains a terminal response and the loop returns a ready Task. -/
theorem wait_until_completed_terminal_correct_witness :
    (∃ r ∈ [procResp, readyResp], terminalResp r = true) ∧
    ((∃ t c s, RunningTask.wait_until_completed [procResp, readyResp] 0 [] = .done t c s ∧
        t.is_ready = true) ∨
     (∃ e c s, RunningTask.wait_until_completed [procResp, readyResp] 0 [] = .failed e c s)) :=
  ⟨⟨readyResp, by simp, by rfl⟩,
   (wait_until_completed_terminal_correct [procResp, readyResp]
     ⟨readyResp, by simp, by rfl⟩).1⟩

/-- The poll loop over N copies of a non-ready, non-erroring response
followed by a terminal script segment: N calls and N sleeps of 10 are
accumulated. -/
lemma wait_replicate (N : Nat) (p : Json) (tail : List Json)
    (hp0 : errorIdOf p = 0) (hpr : (Task.model_validate p).is_ready = false) :
    ∀ calls sleeps,
      RunningTask.wait_until_completed (List.replicate N p ++ tail) calls sleeps =
        RunningTask.wait_until_completed tail (calls + N) (sleeps ++ List.replicate N 10) := by
  induction N with
  | zero => intro calls sleeps; simp
  | succ n ih =>
    intro calls sleeps
    rw [List.replicate_succ, List.cons_append, RunningTask.wait_until_completed]
    have hh : HTTPSession.handle p = .ok p := by simp [HTTPSession.handle, hp0]
    rw [hh]
    simp only [hpr, Bool.false_eq_true, if_false]
    rw [ih (calls + 1) (sleeps ++ [10])]
    have h1 : calls + 1 + n = calls + (n + 1) := by omega
    have h2 : (sleeps ++ [10]) ++ List.replicate n 10 = sleeps ++ List.replicate (n + 1) 10 := by
      rw [List.append_assoc, List.replicate_succ, List.singleton_append]
    rw [h1, h2]

/-- C2: with a processing response on the first N polls and a ready one on
the (N+1)-th, the loop terminates returning the parsed ready Task after
exactly N+1 calls to `get_task_result`, with a sleep of 10 time units
between each pair of consecutive calls (N sleeps for N+1 calls). -/
theorem wait_until_completed_poll_count (N : Nat) (p r : Json)
    (hp : (Task.model_validate p).is_processing = true)
    (hr : (Task.model_validate r).is_ready = true) :
    RunningTask.wait_until_completed (List.replicate N p ++ [r]) 0 [] =
      .done (Task.model_validate r) (N + 1) (List.replicate N 10) := by
  have hp' := (is_processing_iff _).mp hp
  have hp0 : errorIdOf p = 0 := hp'.1
  have hpr : (Task.model_validate p).is_ready = false := by
    rw [Task.is_ready, hp'.2]
    simp
  have hr0 : errorIdOf r = 0 := ((is_ready_iff _).mp hr).1
  rw [wait_replicate N p [r] hp0 hpr 0 []]
  rw [RunningTask.wait_until_completed]
  have hh : HTTPSession.handle r = .ok r := by simp [HTTPSession.handle, hr0]
  rw [hh]
  simp only [hr, if_true]
  simp

/-- C2 witness: with two concrete processing responses then a ready one,
the loop returns the ready Task after 3 calls with sleeps of 10 between
them. -/
theorem wait_until_completed_poll_count_witness :
    (Task.model_validate procResp).is_processing = true ∧
    (Task.model_validate readyResp).is_ready = true ∧
    RunningTask.wait_until_completed (List.replicate 2 procResp ++ [readyResp]) 0 [] =
      .done (Task.model_validate readyResp) 3 [10, 10] :=
  ⟨by rfl, by rfl, wait_until_completed_poll_count 2 procResp readyResp (by rfl) (by rfl)⟩

/-- A transport stub answering every request with the `errorId = 12`
response, used as a concrete witness input. -/
def stubErr : Request → Json := fun _ => errResp

/-- A transport stub answering every request with the processing response,
used as a concrete witness input. -/
def stubProc : Request → Json := fun _ => procResp

/-- C3: when the `/createTask` response reports an application error
(nonzero `errorId`, e.g. 12), `create_task` propagates the transport's
raised failure carrying that error code unchanged, never produces a
RunningTask, and posts only the single request (no retry). -/
theorem create_task_error_propagation (stub : Request → Json) (ty : String)
    (payload : List (String × Json))
    (h : errorIdOf (stub (createRequest ty payload)) ≠ 0) :
    (Async2Captcha.create_task stub ty payload).outcome =
      .error (errorOf (stub (createRequest ty payload))) ∧
    (errorOf (stub (createRequest ty payload))).errorId =
      errorIdOf (stub (createRequest ty payload)) ∧
    (∀ rt, (Async2Captcha.create_task stub ty payload).outcome ≠ .ok rt) ∧
    (Async2Captcha.create_task stub ty payload).requests = [createRequest ty payload] := by
  have hout : (Async2Captcha.create_task stub ty payload).outcome =
      .error (errorOf (stub (createRequest ty payload))) := by
    simp [Async2Captcha.create_task, HTTPSession.handle, h, Except.map]
  refine ⟨hout, rfl, ?_, rfl⟩
  intro rt hok
  rw [hout] at hok
  cases hok

/-- C3 witness: the concrete stub answering with `errorId = 12` makes
`create_task` fail with error code 12 in a single request. -/
theorem create_task_error_propagation_witness :
    errorIdOf (stubErr (createRequest "CoordinatesTask" [("body", Json.str "img")])) ≠ 0 ∧
    (Async2Captcha.create_task stubErr "CoordinatesTask" [("body", Json.str "img")]).outcome =
      .error (errorOf (stubErr (createRequest "CoordinatesTask" [("body", Json.str "img")]))) ∧
    (errorOf (stubErr (createRequest "CoordinatesTask" [("body", Json.str "img")]))).errorId = 12 :=
  ⟨by decide,
   (create_task_error_propagation stubErr "CoordinatesTask" [("body", Json.str "img")]
     (by decide)).1,
   by rfl⟩

/-- C6: `create_task` posts exactly one request — the payload with `type`
injected, under the `task` key, to `/createTask` — and on a no-error
response returns a RunningTask wrapping the parsed response (and thus
bound to the `task_id` it carries); `get_task_result` posts exactly one
request — `taskId` to `/getTaskResult`, a single attempt — and on a
no-error response parses it into a Task. -/
theorem client_request_shapes (stub : Request → Json) (ty : String)
    (payload : List (String × Json)) (tid : Int) :
    (Async2Captcha.create_task stub ty payload).requests = [createRequest ty payload] ∧
    createRequest ty payload =
      { path := "/createTask"
      , body := some (.obj [("task", .obj (dictSet payload "type" (.str ty)))]) } ∧
    (errorIdOf (stub (createRequest ty payload)) = 0 →
      (Async2Captcha.create_task stub ty payload).outcome =
        .ok { task := Task.model_validate (stub (createRequest ty payload)) }) ∧
    (Async2Captcha.get_task_result stub tid).requests = [resultRequest tid] ∧
    resultRequest tid =
      { path := "/getTaskResult", body := some (.obj [("taskId", .int tid)]) } ∧
    (errorIdOf (stub (resultRequest tid)) = 0 →
      (Async2Captcha.get_task_result stub tid).outcome =
        .ok (Task.model_validate (stub (resultRequest tid)))) := by
  refine ⟨rfl, rfl, ?_, rfl, rfl, ?_⟩
  · intro h
    simp [Async2Captcha.create_task, HTTPSession.handle, h, Except.map]
  · intro h
    simp [Async2Captcha.get_task_result, HTTPSession.handle, h, Except.map]

/-- C6 witness: against the concrete processing-response stub, both
operations succeed with the parsed response. -/
theorem client_request_shapes_witness :
    errorIdOf (stubProc (createRequest "CoordinatesTask" [("body", Json.str "img")])) = 0 ∧
    errorIdOf (stubProc (resultRequest 42)) = 0 ∧
    (Async2Captcha.create_task stubProc "CoordinatesTask" [("body", Json.str "img")]).outcome =
      .ok { task := Task.model_validate procResp } ∧
    (Async2Captcha.get_task_result stubProc 42).outcome =
      .ok (Task.model_validate procResp) :=
  ⟨by decide, by decide,
   (client_request_shapes stubProc "CoordinatesTask" [("body", Json.str "img")] 42).2.2.1
     (by decide),
   (client_request_shapes stubProc "CoordinatesTask" [("body", Json.str "img")] 42).2.2.2.2.2
     (by decide)⟩

/-- After replacing the value at `k` across the entries of a dict that
contains `k`, the first entry with key `k` is found as `(k, v)`. -/
lemma find?_map_set (k : String) (v : Json) (d : List (String × Json))
    (h : d.any (fun p => p.1 == k) = true) :
    List.find? (fun p => p.1 == k) (d.map (fun p => if p.1 == k then (k, v) else p)) =
      some (k, v) := by
  induction d with
  | nil => simp at h
  | cons hd tl ih =>
    by_cases hk : hd.1 = k
    · have hb : (hd.1 == k) = true := beq_iff_eq.mpr hk
      rw [List.map_cons, List.find?_cons, if_pos hb]
      simp only [beq_self_eq_true]
    · have hb : (hd.1 == k) = false := beq_eq_false_iff_ne.mpr hk
      have h' : tl.any (fun p => p.1 == k) = true := by
        simp only [List.any_cons] at h
        rcases Bool.or_eq_true_iff.mp h with h1 | h2
        · exact absurd (by simpa using h1) hk
        · exact h2
      rw [List.map_cons, List.find?_cons, if_neg (by simp [hb]), hb]
      exact ih h'

/-- Replacing the value at `k` leaves lookups at every other key
untouched. -/
lemma find?_map_set_ne (k k' : String) (v : Json) (hne : k' ≠ k) (d : List (String × Json)) :
    List.find? (fun p => p.1 == k') (d.map (fun p => if p.1 == k then (k, v) else p)) =
      List.find? (fun p => p.1 == k') d := by
  induction d with
  | nil => rfl
  | cons hd tl ih =>
    have hbkk' : (k == k') = false := beq_eq_false_iff_ne.mpr (fun hh => hne hh.symm)
    by_cases hk : hd.1 = k
    · have hb : (hd.1 == k) = true := beq_iff_eq.mpr hk
      have hb' : (hd.1 == k') = false := by rw [hk]; exact hbkk'
      rw [List.map_cons, List.find?_cons, if_pos hb, List.find?_cons, hb']
      simp only [hbkk']
      exact ih
    · have hb : (hd.1 == k) = false := beq_eq_false_iff_ne.mpr hk
      rw [List.map_cons, List.find?_cons, if_neg (by simp [hb]), List.find?_cons]
      cases hb' : (hd.1 == k') with
      | false => exact ih
      | true => rfl

/-- A Python dict assignment binds the assigned key to the new value. -/
lemma dictGet_dictSet_self (d : List (String × Json)) (k : String) (v : Json) :
    dictGet (dictSet d k v) k = some v := by
  rw [dictSet]
  by_cases h : d.any (fun p => p.1 == k) = true
  · rw [if_pos h, dictGet, find?_map_set k v d h]
    rfl
  · rw [if_neg h, dictGet, List.find?_append]
    have hnone : List.find? (fun p => p.1 == k) d = none := by
      rw [List.find?_eq_none]
      intro x hx
      by_contra hc
      exact h (List.any_eq_true.mpr ⟨x, hx, by simpa using hc⟩)
    rw [hnone]
    simp [List.find?]

/-- A Python dict assignment leaves every other key's binding unchanged. -/
lemma dictGet_dictSet_ne (d : List (String × Json)) (k k' : String) (v : Json)
    (hne : k' ≠ k) :
    dictGet (dictSet d k v) k' = dictGet d k' := by
  rw [dictSet]
  by_cases h : d.any (fun p => p.1 == k) = true
  · rw [if_pos h, dictGet, dictGet, find?_map_set_ne k k' v hne d]
  · rw [if_neg h, dictGet, dictGet, List.find?_append]
    have hkk' : (k == k') = false := by
      simp only [beq_eq_false_iff_ne, ne_eq]
      exact fun hh => hne hh.symm
    simp [List.find?, hkk']

/-- C9: `create_task` mutates the caller's payload dictionary in place —
whatever the transport does (return or raise), after the call the
caller's dictionary binds `type` to the given task type and every other
key to exactly what it held before. -/
theorem create_task_payload_mutation (stub : Request → Json) (ty : String)
    (payload : List (String × Json)) :
    (Async2Captcha.create_task stub ty payload).payload_after =
      dictSet payload "type" (.str ty) ∧
    dictGet (Async2Captcha.create_task stub ty payload).payload_after "type" =
      some (.str ty) ∧
    ∀ k, k ≠ "type" →
      dictGet (Async2Captcha.create_task stub ty payload).payload_after k =
        dictGet payload k := by
  refine ⟨rfl, ?_, ?_⟩
  · exact dictGet_dictSet_self payload "type" (.str ty)
  · intro k hk
    exact dictGet_dictSet_ne payload "type" k (.str ty) hk

/-- C9 witness: against the erroring stub (the call raises), the caller's
concrete payload now binds `type` and still binds `body` as before. -/
theorem create_task_payload_mutation_witness :
    dictGet (Async2Captcha.create_task stubErr "CoordinatesTask"
      [("body", Json.str "img")]).payload_after "type" = some (Json.str "CoordinatesTask") ∧
    dictGet (Async2Captcha.create_task stubErr "CoordinatesTask"
      [("body", Json.str "img")]).payload_after "body" =
      dictGet [("body", Json.str "img")] "body" :=
  ⟨(create_task_payload_mutation stubErr "CoordinatesTask" [("body", Json.str "img")]).2.1,
   (create_task_payload_mutation stubErr "CoordinatesTask" [("body", Json.str "img")]).2.2
     "body" (by decide)⟩

/-- A valid terminal generic Task — ready, solution present — whose opaque
solution is not of the coordinates shape (e.g. a token captcha solution). -/
def tokenSolutionTask : Task :=
  { error_id := 0, error_code := none, error_description := none
  , status := "ready", task_id := 7
  , solution := some (.obj [("token", .str "abc")]) }

/-- C8 counterexample: a valid terminal generic Task — ready, with its
solution present — on which the coordinates re-projection fails, because
the opaque solution carries no `coordinates` list and so does not
re-validate as a CoordinatesSolution (a required field in
coordinates.py). The re-projection is therefore not total over all valid
terminal generic Tasks. -/
theorem coordinates_reproject_counterexample :
    tokenSolutionTask.is_ready = true ∧
    tokenSolutionTask.solution.isSome = true ∧
    coordinates_reproject tokenSolutionTask = none :=
  ⟨rfl, rfl, rfl⟩

/-- C8 amended: for every valid terminal generic Task whose solution is
absent or validates as a coordinates solution, the re-projection succeeds,
copying the common error/status/task_id fields unchanged and
reinterpreting the solution with the solver-specific shape; extra fields
alongside `coordinates` in the solution object never cause failure. -/
theorem coordinates_reproject_total_amended (t : Task) :
    (t.solution = none →
      coordinates_reproject t =
        some { error_id := t.error_id, error_code := t.error_code
             , error_description := t.error_description, status := t.status
             , task_id := t.task_id, solution := none }) ∧
    (∀ j sol, t.solution = some j → parseCoordinatesSolution j = some sol →
      coordinates_reproject t =
        some { error_id := t.error_id, error_code := t.error_code
             , error_description := t.error_description, status := t.status
             , task_id := t.task_id, solution := some sol }) ∧
    (∀ (extra : List (String × Json)) (items : List Json),
      parseCoordinatesSolution (.obj (("coordinates", .arr items) :: extra)) =
        (items.mapM parseCoordEntry).map (fun l => { coordinates := l })) := by
  refine ⟨?_, ?_, fun _ _ => rfl⟩
  · intro h
    simp [coordinates_reproject, h]
  · intro j sol hj hp
    simp [coordinates_reproject, hj, hp]

/-- C8 amended witness: the parsed ready response's solution validates as
a coordinates solution and the re-projection copies the fields over. -/
theorem coordinates_reproject_total_amended_witness :
    (Task.model_validate readyResp).solution =
      some (.obj [("coordinates", .arr [.obj [("x", .int 10), ("y", .int 20)]])]) ∧
    parseCoordinatesSolution
      (.obj [("coordinates", .arr [.obj [("x", .int 10), ("y", .int 20)]])]) =
      some { coordinates := [[("x", 10), ("y", 20)]] } ∧
    coordinates_reproject (Task.model_validate readyResp) =
      some { error_id := (Task.model_validate readyResp).error_id
           , error_code := (Task.model_validate readyResp).error_code
           , error_description := (Task.model_validate readyResp).error_description
           , status := (Task.model_validate readyResp).status
           , task_id := (Task.model_validate readyResp).task_id
           , solution := some { coordinates := [[("x", 10), ("y", 20)]] } } :=
  ⟨rfl, rfl,
   (coordinates_reproject_total_amended (Task.model_validate readyResp)).2.1
     (.obj [("coordinates", .arr [.obj [("x", .int 10), ("y", .int 20)]])])
     { coordinates := [[("x", 10), ("y", 20)]] } rfl rfl⟩

/-- C10: the two string optionals and the two integer optionals of the
coordinates payload use different inclusion tests — `comment` and
`imgInstructions` are included iff the supplied value is truthy, so an
explicit empty string is omitted exactly as if absent, while `minClicks`
and `maxClicks` are included iff the value is supplied at all, so an
explicit 0 is included. -/
theorem build_payload_inclusion_tests (body : String) :
    CoordinatesSolver.build_payload body (some "") (some "") none none =
      [("body", .str body)] ∧
    CoordinatesSolver.build_payload body none none (some 0) (some 0) =
      [("body", .str body), ("minClicks", .int 0), ("maxClicks", .int 0)] ∧
    ∀ (c i : Option String) (mn mx : Option Int),
      (dictGet (CoordinatesSolver.build_payload body c i mn mx) "comment").isSome =
        pyTruthy c ∧
      (dictGet (CoordinatesSolver.build_payload body c i mn mx) "imgInstructions").isSome =
        pyTruthy i ∧
      (dictGet (CoordinatesSolver.build_payload body c i mn mx) "minClicks").isSome =
        mn.isSome ∧
      (dictGet (CoordinatesSolver.build_payload body c i mn mx) "maxClicks").isSome =
        mx.isSome := by
  refine ⟨rfl, rfl, ?_⟩
  intro c i mn mx
  rcases c with _ | cs <;> rcases i with _ | is2 <;> rcases mn with _ | mnv <;>
    rcases mx with _ | mxv <;>
    simp only [CoordinatesSolver.build_payload, pyTruthy] <;>
    first
      | (by_cases hc : cs = "" <;> by_cases hi : is2 = "" <;>
          simp [hc, hi, dictGet, List.find?])
      | (by_cases hc : cs = "" <;> simp [hc, dictGet, List.find?])
      | (by_cases hi : is2 = "" <;> simp [hi, dictGet, List.find?])
      | simp [dictGet, List.find?]

end TwoCaptcha
